import Mathlib

/-!
Shallow embedding of `src/routes/hotels.ts` from the booking-backend
repository: an Express router with five handlers (hotel search, fetch all
hotels, fetch one hotel, create a Stripe payment intent, confirm a booking)
and the helper `constructSearchQuery`.

Machine integers are modelled as `Int`/`Nat`; JavaScript's `parseInt` is
modelled by `jsParseInt`, whose `none` result stands for `NaN`.  The Mongo
store is a list of hotel documents; Stripe is modelled by the environment:
the retrieve endpoint as a function `String → Option PaymentIntent`, and the
create endpoints by their result ids passed in as parameters, with the calls
the handler issues recorded in an explicit trace.
-/

namespace BookingBackend

/-- A query-string value in Express: a single string or an array of strings
(a repeated parameter).  Mirrors the `Array.isArray` checks in
`constructSearchQuery`. -/
inductive StrOrArr where
  | str (s : String)
  | arr (l : List String)
deriving DecidableEq, Repr

/-- JavaScript truthiness of an optional query-string value: absent and the
empty string are falsy, every other string and every array is truthy. -/
def truthy : Option StrOrArr → Bool
  | none => false
  | some (.str s) => !s.isEmpty
  | some (.arr _) => true

/-- Coercion used by `constructSearchQuery`:
`Array.isArray(v) ? v : [v]`. -/
def toArr : StrOrArr → List String
  | .str s => [s]
  | .arr l => l

/-- Digit run of `parseInt`: fold the longest leading run of decimal digits,
`none` when there is no digit at all (JavaScript `NaN`). -/
def parseDigits (cs : List Char) : Option Nat :=
  let ds := cs.takeWhile Char.isDigit
  if ds.isEmpty then none
  else some (ds.foldl (fun a c => a * 10 + (c.toNat - 48)) 0)

/-- JavaScript `parseInt(s, 10)`: skip leading whitespace, read an optional
sign and then the longest run of decimal digits; `none` models `NaN`. -/
def jsParseInt (s : String) : Option Int :=
  match s.data.dropWhile Char.isWhitespace with
  | '-' :: rest => (parseDigits rest).map (fun n => -(n : Int))
  | '+' :: rest => (parseDigits rest).map (fun n => (n : Int))
  | rest => (parseDigits rest).map (fun n => (n : Int))

/-- A booking sub-record (`BookingType`).  The confirm-booking handler builds
it as `{ ...req.body, userId: req.userId }`: every body field is spread in
and `userId` is then overwritten. -/
structure Booking where
  userId : String
  paymentIntentId : String
  otherFields : List (String × String)
deriving DecidableEq, Repr

/-- The confirm-booking request body (`req.body`): it carries the
`paymentIntentId`, possibly a client-supplied `userId`, and arbitrary other
fields, all of which get spread into the new booking. -/
structure BookingBody where
  paymentIntentId : String
  userId : Option String
  otherFields : List (String × String)
deriving DecidableEq, Repr

/-- The spread `{ ...req.body, userId: req.userId }`: the body's own
`userId`, when present, is overridden by the authenticated one. -/
def mkBooking (body : BookingBody) (authUserId : String) : Booking :=
  { userId := authUserId
    paymentIntentId := body.paymentIntentId
    otherFields := body.otherFields }

/-- A hotel document as used by this router (`_id`, the searchable fields,
`pricePerNight`, `lastUpdated` and the embedded `bookings` list). -/
structure Hotel where
  _id : String
  name : String
  city : String
  country : String
  adultCount : Nat
  childCount : Nat
  facilities : List String
  htype : String
  starRating : Nat
  pricePerNight : Nat
  lastUpdated : Nat
  bookings : List Booking
deriving DecidableEq, Repr

/-- A Stripe payment intent as seen by the confirm-booking handler: its id,
status and the two metadata fields the handler checks. -/
structure PaymentIntent where
  id : String
  client_secret : String
  status : String
  metaHotelId : String
  metaUserId : String
deriving DecidableEq, Repr

/-! ## constructSearchQuery -/

/-- The raw query of `GET /search` (`req.query`), each parameter optional. -/
structure SearchParams where
  destination : Option StrOrArr := none
  adultCount : Option StrOrArr := none
  childCount : Option StrOrArr := none
  facilities : Option StrOrArr := none
  types : Option StrOrArr := none
  stars : Option StrOrArr := none
  maxPrice : Option StrOrArr := none
  sortOption : Option String := none
  page : Option String := none
deriving DecidableEq, Repr

/-- First string of a query value, as JavaScript string coercion of the value
is applied by `parseInt`/`RegExp` when the parameter is a plain string.  The
handlers only ever receive plain strings for the scalar parameters. -/
def scalar : Option StrOrArr → String
  | some (.str s) => s
  | some (.arr l) => String.intercalate "," l
  | none => ""

/-- The Mongo filter object built by `constructSearchQuery`; `none` in a
field means the key is absent from the object.  In the numeric fields the
inner `Option Int` is the `parseInt` result (`none` = `NaN`). -/
structure SearchFilter where
  orCityCountry : Option String := none
  adultCountGte : Option (Option Int) := none
  childCountGte : Option (Option Int) := none
  facilitiesAll : Option (List String) := none
  typeIn : Option (List String) := none
  starRatingIn : Option (List (Option Int)) := none
  pricePerNightLte : Option (Option Int) := none
deriving DecidableEq, Repr

/-- Translation of `constructSearchQuery`: the source starts from `{}` and
runs seven independent `if (queryParams.x)` guards, each setting one key of
`constructedQuery`; here each key is the corresponding conditional
(JavaScript truthiness guards, `RegExp` patterns kept as their pattern
string, `parseInt` as `jsParseInt`). -/
def constructSearchQuery (q : SearchParams) : SearchFilter :=
  { orCityCountry :=
      if truthy q.destination then some (scalar q.destination) else none
    adultCountGte :=
      if truthy q.adultCount then some (jsParseInt (scalar q.adultCount)) else none
    childCountGte :=
      if truthy q.childCount then some (jsParseInt (scalar q.childCount)) else none
    facilitiesAll :=
      if truthy q.facilities then some (toArr (q.facilities.getD (.arr []))) else none
    typeIn :=
      if truthy q.types then some (toArr (q.types.getD (.arr []))) else none
    starRatingIn :=
      if truthy q.stars then some ((toArr (q.stars.getD (.arr []))).map jsParseInt) else none
    pricePerNightLte :=
      if truthy q.maxPrice then some (jsParseInt (scalar q.maxPrice)) else none }

/-! ## Mongo semantics for the search filter -/

/-- Prefix test on character lists (needle is a prefix of hay). -/
def leadsWith : List Char → List Char → Bool
  | _, [] => true
  | [], _ :: _ => false
  | h :: t, c :: n => h == c && leadsWith t n

/-- Substring test on character lists. -/
def containsSeq (n : List Char) : List Char → Bool
  | [] => leadsWith [] n
  | h :: t => leadsWith (h :: t) n || containsSeq n t

/-- Case-insensitive unanchored match, the semantics Mongo gives the
`new RegExp(destination, "i")` filters for metacharacter-free patterns. -/
def ciMatches (pat field : String) : Bool :=
  containsSeq pat.toLower.data field.toLower.data

/-- Mongo `$gte` against a possibly-`NaN` bound: `NaN` compares false. -/
def gteNum (bound : Option Int) (v : Nat) : Bool :=
  match bound with
  | none => false
  | some b => b ≤ (v : Int)

/-- Mongo `$lte` against a possibly-`NaN` bound: `NaN` compares false. -/
def lteNum (bound : Option Int) (v : Nat) : Bool :=
  match bound with
  | none => false
  | some b => (v : Int) ≤ b

/-- Whether a hotel document satisfies the constructed filter (Mongo `find`
semantics: every present key must match; `$all`, `$in`, `$or` as usual). -/
def hotelMatches (f : SearchFilter) (h : Hotel) : Bool :=
  (match f.orCityCountry with
   | none => true
   | some pat => ciMatches pat h.city || ciMatches pat h.country) &&
  (match f.adultCountGte with
   | none => true
   | some b => gteNum b h.adultCount) &&
  (match f.childCountGte with
   | none => true
   | some b => gteNum b h.childCount) &&
  (match f.facilitiesAll with
   | none => true
   | some fs => fs.all (fun x => h.facilities.contains x)) &&
  (match f.typeIn with
   | none => true
   | some ts => ts.contains h.htype) &&
  (match f.starRatingIn with
   | none => true
   | some ss => ss.contains (some (h.starRating : Int))) &&
  (match f.pricePerNightLte with
   | none => true
   | some b => lteNum b h.pricePerNight)

/-! ## Search handler -/

/-- Insertion into a list sorted by `le`. -/
def insertSorted (le : Hotel → Hotel → Bool) (x : Hotel) : List Hotel → List Hotel
  | [] => [x]
  | y :: ys => if le x y then x :: y :: ys else y :: insertSorted le x ys

/-- Sort model for Mongo `.sort`. -/
def sortHotelsBy (le : Hotel → Hotel → Bool) (l : List Hotel) : List Hotel :=
  l.foldr (insertSorted le) []

/-- The `switch (req.query.sortOption)` of the search handler: `{}` (no
reordering) unless one of the three recognised options is given. -/
def applySort (sortOption : Option String) (l : List Hotel) : List Hotel :=
  match sortOption with
  | some "starRating" => sortHotelsBy (fun a b => b.starRating ≤ a.starRating) l
  | some "pricePerNightAsc" => sortHotelsBy (fun a b => a.pricePerNight ≤ b.pricePerNight) l
  | some "pricePerNightDesc" => sortHotelsBy (fun a b => b.pricePerNight ≤ a.pricePerNight) l
  | _ => l

/-- The `pagination` object of `HotelSearchResponse`. -/
structure Pagination where
  total : Nat
  page : Int
  pages : Nat
deriving DecidableEq, Repr

/-- The body of a successful `GET /search` response. -/
structure HotelSearchResponse where
  data : List Hotel
  pagination : Pagination
deriving DecidableEq, Repr

/-- The `GET /search` handler.  Returns the JSON response and the trace of
database calls it issued (`Hotel.find` then `Hotel.countDocuments`, always
both).  When `parseInt` of the page parameter is `NaN` the skip handed to the
driver is `NaN` and no well-defined response is produced (`none`); for an
integer page the handler computes `skip = (pageNumber - 1) * pageSize`,
limits to `pageSize = 5` and reports `{ total, page, pages = ceil(total/5) }`. -/
def searchHandler (store : List Hotel) (q : SearchParams) :
    Option HotelSearchResponse × List String :=
  let filter := constructSearchQuery q
  let matching := store.filter (hotelMatches filter)
  let sorted := applySort q.sortOption matching
  let ops := ["Hotel.find", "Hotel.countDocuments"]
  match jsParseInt ((q.page).getD "1") with
  | none => (none, ops)
  | some pageNumber =>
    let skip := (pageNumber - 1) * 5
    let hotels := (sorted.drop skip.toNat).take 5
    let total := matching.length
    (some { data := hotels
            pagination :=
              { total := total, page := pageNumber, pages := (total + 4) / 5 } },
     ops)

/-! ## Fetch handlers -/

/-- The `GET /` handler: every hotel, sorted by `lastUpdated` descending;
one database call. -/
def allHotelsHandler (store : List Hotel) : List Hotel × List String :=
  (sortHotelsBy (fun a b => b.lastUpdated ≤ a.lastUpdated) store, ["Hotel.find"])

/-- The `GET /:id` handler: a 400 from the validator when the id is empty,
else `findById`, 404 when absent. -/
def hotelByIdHandler (store : List Hotel) (id : String) :
    (Nat × Option Hotel) × List String :=
  if id.isEmpty then ((400, none), [])
  else
    match store.find? (fun h => h._id == id) with
    | none => ((404, none), ["Hotel.findById"])
    | some h => ((200, some h), ["Hotel.findById"])

/-! ## Payment-intent handler -/

/-- One call to the Stripe SDK, in the order the handler awaits them. -/
inductive StripeCall where
  | createCustomer (name line1 city state country postalCode : String)
  | createPaymentIntent (amount : Nat) (currency : String) (customer : String)
      (description : String) (metaHotelId metaUserId : String)
deriving DecidableEq, Repr

/-- The JSON body of a successful payment-intent response. -/
structure PIResponse where
  paymentIntentId : String
  clientSecret : String
  totalCost : Nat
deriving DecidableEq, Repr

/-- The `POST /:hotelId/bookings/payment-intent` handler (after
`verifyToken` has put `userId` on the request).  The ids returned by Stripe
for the created customer and payment intent are environment inputs
(`customerId`, `piId`, `piSecret`).  Returns the HTTP status, the response
body, the Stripe-call trace and the database-call trace. -/
def paymentIntentHandler (store : List Hotel) (hotelId userId : String)
    (numberOfNights : Nat) (customerId piId piSecret : String) :
    Nat × Option PIResponse × List StripeCall × List String :=
  match store.find? (fun h => h._id == hotelId) with
  | none => (400, none, [], ["Hotel.findById"])
  | some hotel =>
    let totalCost := hotel.pricePerNight * numberOfNights
    (200,
     some { paymentIntentId := piId, clientSecret := piSecret, totalCost := totalCost },
     [StripeCall.createCustomer "Test User" "123 Test Street" "Hyderabad"
        "Telangana" "IN" "500001",
      StripeCall.createPaymentIntent (totalCost * 100) "inr" customerId
        ("Booking at " ++ hotel.name ++ " for " ++ toString numberOfNights ++ " nights")
        hotelId userId],
     ["Hotel.findById"])

/-! ## Confirm-booking handler -/

/-- A request to `POST /:hotelId/bookings`: the URL parameter, the userId
taken from the verified token, and the JSON body. -/
structure ConfirmRequest where
  hotelId : String
  userId : String
  body : BookingBody
deriving DecidableEq, Repr

/-- Result of the confirm-booking handler: HTTP status, response message,
the store after the request, the booking appended (if any) and the
database-call trace. -/
structure ConfirmResult where
  status : Nat
  message : String
  store : List Hotel
  appended : Option Booking
  dbOps : List String
deriving DecidableEq, Repr

/-- Mongo `findOneAndUpdate({_id: hid}, {$push: {bookings: b}})`: the first
document whose `_id` matches gets `b` appended to its `bookings`. -/
def pushBooking (store : List Hotel) (hid : String) (b : Booking) : List Hotel :=
  match store with
  | [] => []
  | h :: t =>
    if h._id = hid then { h with bookings := h.bookings ++ [b] } :: t
    else h :: pushBooking t hid b

/-- The `POST /:hotelId/bookings` handler.  `retrieve` models
`stripe.paymentIntents.retrieve`; the guards and their order are those of the
source: missing intent → 400, metadata mismatch → 400, status not
"succeeded" → 400, then `findOneAndUpdate` with the `$push`, 404 when it
matched no hotel, else 200. -/
def confirmBooking (retrieve : String → Option PaymentIntent)
    (store : List Hotel) (req : ConfirmRequest) : ConfirmResult :=
  match retrieve req.body.paymentIntentId with
  | none =>
    { status := 400, message := "Payment intent not found", store := store
      appended := none, dbOps := [] }
  | some paymentIntent =>
    if paymentIntent.metaHotelId ≠ req.hotelId ∨ paymentIntent.metaUserId ≠ req.userId then
      { status := 400, message := "Payment intent metadata mismatch", store := store
        appended := none, dbOps := [] }
    else if paymentIntent.status ≠ "succeeded" then
      { status := 400
        message := "Payment not succeeded. Status: " ++ paymentIntent.status
        store := store, appended := none, dbOps := [] }
    else
      let newBooking := mkBooking req.body req.userId
      if store.any (fun h => h._id == req.hotelId) then
        { status := 200, message := "Booking successful"
          store := pushBooking store req.hotelId newBooking
          appended := some newBooking, dbOps := ["Hotel.findOneAndUpdate"] }
      else
        { status := 404, message := "Hotel not found", store := store
          appended := none, dbOps := ["Hotel.findOneAndUpdate"] }

/-- The combined payment-intent checks of the confirm-booking handler: the
retrieved intent exists, its metadata matches the URL hotel and the
authenticated user, and its status is "succeeded". -/
def piChecksPass (retrieve : String → Option PaymentIntent) (req : ConfirmRequest) : Bool :=
  match retrieve req.body.paymentIntentId with
  | none => false
  | some pi =>
    pi.metaHotelId == req.hotelId && pi.metaUserId == req.userId &&
      pi.status == "succeeded"

/-! ## Exception model

Each handler is also modelled at the level of its try/catch structure: the
booleans say which awaited operation throws, and the outcome is either an
HTTP response or an exception that escapes the handler.  The placement of
the `try` blocks is copied from the source; in particular the payment-intent
handler runs `Hotel.findById` before entering its `try`. -/

/-- Outcome of a handler under the exception model. -/
inductive Outcome where
  | response (status : Nat)
  | escaped
deriving DecidableEq, Repr

/-- `GET /search`: the whole body is inside `try`, so any throwing call
yields the 500 response. -/
def searchHandlerExn (findThrows countThrows : Bool) : Outcome :=
  if findThrows || countThrows then .response 500 else .response 200

/-- `GET /`: the whole body is inside `try`. -/
def allHotelsHandlerExn (findThrows : Bool) : Outcome :=
  if findThrows then .response 500 else .response 200

/-- `GET /:id`: validation happens before the `try`, the `findById` inside it. -/
def hotelByIdHandlerExn (idEmpty findThrows found : Bool) : Outcome :=
  if idEmpty then .response 400
  else if findThrows then .response 500
  else if !found then .response 404
  else .response 200

/-- `POST /:hotelId/bookings/payment-intent`: `Hotel.findById` is executed
before the `try` block, so an exception there escapes the handler; only the
Stripe calls are covered by the catch. -/
def paymentIntentHandlerExn (dbThrows found customerThrows intentThrows : Bool) : Outcome :=
  if dbThrows then .escaped
  else if !found then .response 400
  else if customerThrows then .response 500
  else if intentThrows then .response 500
  else .response 200

/-- `POST /:hotelId/bookings`: the whole body is inside `try`. -/
def confirmBookingExn (retrieveThrows dbThrows checksPass found : Bool) : Outcome :=
  if retrieveThrows then .response 500
  else if !checksPass then .response 400
  else if dbThrows then .response 500
  else if !found then .response 404
  else .response 200

/-! ## Concrete fixtures used by witnesses and counterexamples -/

/-- A succeeded payment intent for hotel `h1` and user `u1`. -/
def cPI : PaymentIntent :=
  { id := "pi_1", client_secret := "sec_1", status := "succeeded"
    metaHotelId := "h1", metaUserId := "u1" }

/-- A Stripe environment that knows exactly the intent `pi_1`. -/
def cRetrieve : String → Option PaymentIntent :=
  fun s => if s = "pi_1" then some cPI else none

/-- A concrete hotel document with id `h1` and no bookings. -/
def cHotel : Hotel :=
  { _id := "h1", name := "Sea View", city := "Panaji", country := "India"
    adultCount := 2, childCount := 1, facilities := ["WiFi"], htype := "Resort"
    starRating := 4, pricePerNight := 120, lastUpdated := 7, bookings := [] }

/-- A confirm-booking body that even carries a forged `userId`. -/
def cBody : BookingBody :=
  { paymentIntentId := "pi_1", userId := some "mallory"
    otherFields := [("checkIn", "2026-01-01")] }

/-- A confirm-booking request for hotel `h1` authenticated as `u1`. -/
def cReq : ConfirmRequest := { hotelId := "h1", userId := "u1", body := cBody }

/-! ## Theorems -/

/-- Absent query parameters are falsy. -/
@[simp] lemma truthy_none : truthy none = false := rfl

/-- C6: `constructSearchQuery` adds a filter condition for a parameter only
when that parameter is present (JavaScript-truthy): `destination` yields the
case-insensitive city-or-country `$or` pattern, `adultCount`/`childCount`
yield `$gte` on their parsed integers, `facilities` yields `$all` over the
given value(s), `types` yields `$in`, `stars` yields `$in` over the parsed
ratings, `maxPrice` yields `$lte` on its parsed integer; with no parameter
present the filter is the empty object. -/
theorem constructSearchQuery_spec (q : SearchParams) :
    ((truthy q.destination = false → (constructSearchQuery q).orCityCountry = none)
      ∧ (truthy q.destination = true →
          (constructSearchQuery q).orCityCountry = some (scalar q.destination)))
    ∧ ((truthy q.adultCount = false → (constructSearchQuery q).adultCountGte = none)
      ∧ (truthy q.adultCount = true →
          (constructSearchQuery q).adultCountGte = some (jsParseInt (scalar q.adultCount))))
    ∧ ((truthy q.childCount = false → (constructSearchQuery q).childCountGte = none)
      ∧ (truthy q.childCount = true →
          (constructSearchQuery q).childCountGte = some (jsParseInt (scalar q.childCount))))
    ∧ ((truthy q.facilities = false → (constructSearchQuery q).facilitiesAll = none)
      ∧ (∀ a, q.facilities = some a → truthy q.facilities = true →
          (constructSearchQuery q).facilitiesAll = some (toArr a)))
    ∧ ((truthy q.types = false → (constructSearchQuery q).typeIn = none)
      ∧ (∀ a, q.types = some a → truthy q.types = true →
          (constructSearchQuery q).typeIn = some (toArr a)))
    ∧ ((truthy q.stars = false → (constructSearchQuery q).starRatingIn = none)
      ∧ (∀ a, q.stars = some a → truthy q.stars = true →
          (constructSearchQuery q).starRatingIn = some ((toArr a).map jsParseInt)))
    ∧ ((truthy q.maxPrice = false → (constructSearchQuery q).pricePerNightLte = none)
      ∧ (truthy q.maxPrice = true →
          (constructSearchQuery q).pricePerNightLte = some (jsParseInt (scalar q.maxPrice))))
    ∧ (q.destination = none → q.adultCount = none → q.childCount = none →
        q.facilities = none → q.types = none → q.stars = none → q.maxPrice = none →
        constructSearchQuery q = {}) := by
  simp only [constructSearchQuery]
  exact ⟨⟨fun hdf => by simp [hdf], fun hdt => by simp [hdt]⟩,
    ⟨fun haf => by simp [haf], fun hat => by simp [hat]⟩,
    ⟨fun hcf => by simp [hcf], fun hct => by simp [hct]⟩,
    ⟨fun hff => by simp [hff], fun a haf hft => by rw [haf] at hft; simp [haf, hft]⟩,
    ⟨fun htf => by simp [htf], fun a hat htt => by rw [hat] at htt; simp [hat, htt]⟩,
    ⟨fun hsf => by simp [hsf], fun a has hst => by rw [has] at hst; simp [has, hst]⟩,
    ⟨fun hmf => by simp [hmf], fun hmt => by simp [hmt]⟩,
    fun h1 h2 h3 h4 h5 h6 h7 => by simp [h1, h2, h3, h4, h5, h6, h7]⟩

/-- Witness for C6 at a concrete query: a truthy destination produces the
`$or` pattern on city and country. -/
theorem constructSearchQuery_spec_witness :
    truthy ({ destination := some (.str "goa") } : SearchParams).destination = true
    ∧ (constructSearchQuery { destination := some (.str "goa") }).orCityCountry = some "goa" :=
  ⟨by decide, (constructSearchQuery_spec { destination := some (.str "goa") }).1.2 (by decide)⟩

/-- C5: for every search request whose page parameter parses (default "1")
to an integer `p ≥ 1`, the handler skips `(p - 1) * 5` matching documents,
returns at most 5, and reports `pagination = { total, page := p,
pages := ceil(total / 5) }` (the last two conjuncts pin `pages` down as the
ceiling of `total / 5`). -/
theorem searchHandler_pagination (store : List Hotel) (q : SearchParams) (p : Int)
    (hp : jsParseInt ((q.page).getD "1") = some p) (hp1 : 1 ≤ p) :
    ∃ r, (searchHandler store q).1 = some r
      ∧ r.data = ((applySort q.sortOption
            (store.filter (hotelMatches (constructSearchQuery q)))).drop
              (((p - 1) * 5).toNat)).take 5
      ∧ r.data.length ≤ 5
      ∧ r.pagination.total =
          (store.filter (hotelMatches (constructSearchQuery q))).length
      ∧ r.pagination.page = p
      ∧ r.pagination.pages = (r.pagination.total + 4) / 5
      ∧ r.pagination.total ≤ 5 * r.pagination.pages
      ∧ 5 * r.pagination.pages < r.pagination.total + 5 := by
  have hEq : (searchHandler store q).1 =
      some { data := ((applySort q.sortOption
                (store.filter (hotelMatches (constructSearchQuery q)))).drop
                  (((p - 1) * 5).toNat)).take 5
             pagination :=
               { total := (store.filter (hotelMatches (constructSearchQuery q))).length
                 page := p
                 pages := ((store.filter (hotelMatches (constructSearchQuery q))).length + 4) / 5 } } := by
    unfold searchHandler
    rw [hp]
  refine ⟨_, hEq, rfl, ?_, rfl, rfl, rfl, ?_, ?_⟩
  · exact List.length_take_le 5 _
  · dsimp only
    omega
  · dsimp only
    omega

/-- Witness for C5 on the empty store and page "2". -/
theorem searchHandler_pagination_witness :
    jsParseInt ((({ page := some "2" } : SearchParams)).page.getD "1") = some 2
    ∧ (∃ r, (searchHandler [] { page := some "2" }).1 = some r
      ∧ r.data = ((applySort ({ page := some "2" } : SearchParams).sortOption
            (([] : List Hotel).filter (hotelMatches (constructSearchQuery { page := some "2" })))).drop
              ((((2 : Int) - 1) * 5).toNat)).take 5
      ∧ r.data.length ≤ 5
      ∧ r.pagination.total =
          (([] : List Hotel).filter (hotelMatches (constructSearchQuery { page := some "2" }))).length
      ∧ r.pagination.page = 2
      ∧ r.pagination.pages = (r.pagination.total + 4) / 5
      ∧ r.pagination.total ≤ 5 * r.pagination.pages
      ∧ 5 * r.pagination.pages < r.pagination.total + 5) :=
  ⟨by decide, searchHandler_pagination [] { page := some "2" } 2 (by decide) (by decide)⟩

/-- C10: when the page parameter is absent the handler uses page number 1,
skips zero documents (results start at the first matching document) and
reports `pagination.page = 1`. -/
theorem searchHandler_default_page (store : List Hotel) (q : SearchParams)
    (hq : q.page = none) :
    ∃ r, (searchHandler store q).1 = some r
      ∧ r.pagination.page = 1
      ∧ r.data = (applySort q.sortOption
          (store.filter (hotelMatches (constructSearchQuery q)))).take 5 := by
  have h1 : jsParseInt ((q.page).getD "1") = some 1 := by rw [hq]; decide
  have hEq : (searchHandler store q).1 =
      some { data := ((applySort q.sortOption
                (store.filter (hotelMatches (constructSearchQuery q)))).drop
                  ((((1 : Int) - 1) * 5).toNat)).take 5
             pagination :=
               { total := (store.filter (hotelMatches (constructSearchQuery q))).length
                 page := 1
                 pages := ((store.filter (hotelMatches (constructSearchQuery q))).length + 4) / 5 } } := by
    unfold searchHandler
    rw [h1]
  refine ⟨_, hEq, rfl, ?_⟩
  norm_num

/-- Witness for C10: a concrete request with no page parameter lands on
page 1. -/
theorem searchHandler_default_page_witness :
    (({} : SearchParams)).page = none
    ∧ (∃ r, (searchHandler [cHotel] {}).1 = some r
      ∧ r.pagination.page = 1
      ∧ r.data = (applySort ({} : SearchParams).sortOption
          ([cHotel].filter (hotelMatches (constructSearchQuery {})))).take 5) :=
  ⟨rfl, searchHandler_default_page [cHotel] {} rfl⟩

/-! ## Confirm-booking lemmas -/

/-- Total number of booking sub-records held anywhere in the store. -/
def totalBookings (store : List Hotel) : Nat :=
  (store.map (fun h => h.bookings.length)).sum

/-- Unfolding of the payment-intent checks. -/
lemma piChecksPass_eq_true (retrieve : String → Option PaymentIntent)
    (req : ConfirmRequest) :
    piChecksPass retrieve req = true ↔
      ∃ pi, retrieve req.body.paymentIntentId = some pi
        ∧ pi.metaHotelId = req.hotelId ∧ pi.metaUserId = req.userId
        ∧ pi.status = "succeeded" := by
  rcases hR : retrieve req.body.paymentIntentId with _ | pi <;>
    simp [piChecksPass, hR, and_assoc]

/-- When the payment-intent checks fail the handler returns 400 and touches
nothing. -/
lemma confirmBooking_not_pass (retrieve : String → Option PaymentIntent)
    (store : List Hotel) (req : ConfirmRequest)
    (hc : piChecksPass retrieve req = false) :
    (confirmBooking retrieve store req).status = 400
    ∧ (confirmBooking retrieve store req).store = store
    ∧ (confirmBooking retrieve store req).appended = none
    ∧ (confirmBooking retrieve store req).dbOps = [] := by
  rcases hR : retrieve req.body.paymentIntentId with _ | pi
  · simp [confirmBooking, hR]
  · by_cases hM1 : pi.metaHotelId = req.hotelId
    · by_cases hM2 : pi.metaUserId = req.userId
      · by_cases hSt : pi.status = "succeeded"
        · exfalso
          simp [piChecksPass, hR, hM1, hM2, hSt] at hc
        · simp [confirmBooking, hR, hM1, hM2, hSt]
      · simp [confirmBooking, hR, hM2]
    · simp [confirmBooking, hR, hM1]

/-- When the checks pass and the hotel exists the handler pushes the booking
built from the body with the authenticated `userId` and answers 200. -/
lemma confirmBooking_pass_found (retrieve : String → Option PaymentIntent)
    (store : List Hotel) (req : ConfirmRequest)
    (hc : piChecksPass retrieve req = true)
    (hAny : store.any (fun x => x._id == req.hotelId) = true) :
    confirmBooking retrieve store req =
      { status := 200, message := "Booking successful"
        store := pushBooking store req.hotelId (mkBooking req.body req.userId)
        appended := some (mkBooking req.body req.userId)
        dbOps := ["Hotel.findOneAndUpdate"] } := by
  obtain ⟨pi, hR, hM1, hM2, hSt⟩ := (piChecksPass_eq_true retrieve req).mp hc
  simp [confirmBooking, hR, hM1, hM2, hSt, hAny]

/-- When the checks pass but no hotel matches, `findOneAndUpdate` matches
nothing and the handler answers 404. -/
lemma confirmBooking_pass_missing (retrieve : String → Option PaymentIntent)
    (store : List Hotel) (req : ConfirmRequest)
    (hc : piChecksPass retrieve req = true)
    (hAny : store.any (fun x => x._id == req.hotelId) = false) :
    confirmBooking retrieve store req =
      { status := 404, message := "Hotel not found", store := store
        appended := none, dbOps := ["Hotel.findOneAndUpdate"] } := by
  obtain ⟨pi, hR, hM1, hM2, hSt⟩ := (piChecksPass_eq_true retrieve req).mp hc
  simp [confirmBooking, hR, hM1, hM2, hSt, hAny]

/-- `pushBooking` rewrites exactly the first hotel whose `_id` matches,
appending one booking to it and leaving every other document untouched. -/
lemma pushBooking_split (store : List Hotel) (hid : String) (b : Booking)
    (h : store.any (fun x => x._id == hid) = true) :
    ∃ pre x post, store = pre ++ x :: post ∧ x._id = hid
      ∧ (∀ y ∈ pre, y._id ≠ hid)
      ∧ pushBooking store hid b =
          pre ++ { x with bookings := x.bookings ++ [b] } :: post := by
  induction store with
  | nil => simp at h
  | cons h0 t ih =>
    by_cases h0id : h0._id = hid
    · exact ⟨[], h0, t, by simp, h0id, by simp, by simp [pushBooking, h0id]⟩
    · have ht : t.any (fun x => x._id == hid) = true := by
        simpa [h0id] using h
      obtain ⟨pre, x, post, hs, hx, hpre, hpush⟩ := ih ht
      refine ⟨h0 :: pre, x, post, by simp [hs], hx, ?_, ?_⟩
      · intro y hy
        rcases List.mem_cons.mp hy with rfl | hy
        · exact h0id
        · exact hpre y hy
      · simp [pushBooking, h0id, hpush]

/-- `pushBooking` on a store containing the id grows the total number of
bookings by exactly one. -/
lemma totalBookings_pushBooking (store : List Hotel) (hid : String) (b : Booking)
    (h : store.any (fun x => x._id == hid) = true) :
    totalBookings (pushBooking store hid b) = totalBookings store + 1 := by
  induction store with
  | nil => simp at h
  | cons h0 t ih =>
    by_cases h0id : h0._id = hid
    · simp [pushBooking, h0id, totalBookings]
      omega
    · have ht : t.any (fun x => x._id == hid) = true := by
        simpa [h0id] using h
      have := ih ht
      simp [pushBooking, h0id, totalBookings] at this ⊢
      omega

/-- C1: a confirm-booking request appends a booking sub-record (the store's
total booking count grows by one) exactly when the retrieved payment intent
exists with matching `hotelId`/`userId` metadata and status "succeeded" and
the target hotel exists; when the checks fail the handler answers 400 and
changes nothing, and when they pass but the hotel is missing it answers 404
and changes nothing. -/
theorem confirmBooking_spec (retrieve : String → Option PaymentIntent)
    (store : List Hotel) (req : ConfirmRequest) :
    (totalBookings (confirmBooking retrieve store req).store = totalBookings store + 1
        ↔ piChecksPass retrieve req = true
          ∧ store.any (fun x => x._id == req.hotelId) = true)
    ∧ (piChecksPass retrieve req = false →
        (confirmBooking retrieve store req).status = 400
        ∧ (confirmBooking retrieve store req).store = store
        ∧ (confirmBooking retrieve store req).appended = none)
    ∧ (piChecksPass retrieve req = true →
        store.any (fun x => x._id == req.hotelId) = false →
        (confirmBooking retrieve store req).status = 404
        ∧ (confirmBooking retrieve store req).store = store
        ∧ (confirmBooking retrieve store req).appended = none)
    ∧ (piChecksPass retrieve req = true →
        store.any (fun x => x._id == req.hotelId) = true →
        (confirmBooking retrieve store req).status = 200
        ∧ (confirmBooking retrieve store req).appended =
            some (mkBooking req.body req.userId)
        ∧ (confirmBooking retrieve store req).store =
            pushBooking store req.hotelId (mkBooking req.body req.userId)) := by
  by_cases hc : piChecksPass retrieve req = true
  · by_cases hAny : store.any (fun x => x._id == req.hotelId) = true
    · rw [confirmBooking_pass_found retrieve store req hc hAny]
      refine ⟨?_, ?_, ?_, fun _ _ => ⟨rfl, rfl, rfl⟩⟩
      · simpa [hc, hAny] using
          totalBookings_pushBooking store req.hotelId (mkBooking req.body req.userId) hAny
      · intro h
        rw [h] at hc
        simp at hc
      · intro _ h
        rw [h] at hAny
        simp at hAny
    · have hAny' : store.any (fun x => x._id == req.hotelId) = false := by
        simpa using hAny
      rw [confirmBooking_pass_missing retrieve store req hc hAny']
      refine ⟨?_, ?_, fun _ _ => ⟨rfl, rfl, rfl⟩, ?_⟩
      · simp [hAny']
      · intro h
        rw [h] at hc
        simp at hc
      · intro _ h
        rw [h] at hAny'
        simp at hAny'
  · have hc' : piChecksPass retrieve req = false := by simpa using hc
    obtain ⟨h1, h2, h3, _⟩ := confirmBooking_not_pass retrieve store req hc'
    refine ⟨?_, fun _ => ⟨h1, h2, h3⟩, ?_, ?_⟩
    · rw [h2]
      simp [hc']
    · intro h _
      rw [h] at hc'
      simp at hc'
    · intro h _
      rw [h] at hc'
      simp at hc'

/-- Witness for C1: on the concrete store the checks pass, the hotel exists,
and the handler answers 200 after pushing the booking. -/
theorem confirmBooking_spec_witness :
    piChecksPass cRetrieve cReq = true
    ∧ ([cHotel].any (fun x => x._id == cReq.hotelId) = true)
    ∧ (confirmBooking cRetrieve [cHotel] cReq).status = 200
    ∧ (confirmBooking cRetrieve [cHotel] cReq).appended =
        some (mkBooking cReq.body cReq.userId)
    ∧ (confirmBooking cRetrieve [cHotel] cReq).store =
        pushBooking [cHotel] cReq.hotelId (mkBooking cReq.body cReq.userId) :=
  ⟨by decide, by decide,
    (confirmBooking_spec cRetrieve [cHotel] cReq).2.2.2 (by decide) (by decide)⟩

/-- C3: confirm-booking is not idempotent — submitting the same request
twice (same hotel, same payment intent, same user) appends two identical
booking sub-records to the hotel's bookings list. -/
theorem confirmBooking_not_idempotent :
    (confirmBooking cRetrieve [cHotel] cReq).status = 200
    ∧ (confirmBooking cRetrieve (confirmBooking cRetrieve [cHotel] cReq).store cReq).status = 200
    ∧ (confirmBooking cRetrieve (confirmBooking cRetrieve [cHotel] cReq).store cReq).store =
        [{ cHotel with
            bookings := [mkBooking cReq.body "u1", mkBooking cReq.body "u1"] }] := by
  decide

/-- C8: whatever `userId` the request body carries, the booking the handler
writes has the authenticated requester's `userId`: the body spread is
overridden by `userId := req.userId`. -/
theorem confirmBooking_userId (retrieve : String → Option PaymentIntent)
    (store : List Hotel) (req : ConfirmRequest) (b : Booking)
    (h : (confirmBooking retrieve store req).appended = some b) :
    b.userId = req.userId := by
  by_cases hc : piChecksPass retrieve req = true
  · by_cases hAny : store.any (fun x => x._id == req.hotelId) = true
    · rw [confirmBooking_pass_found retrieve store req hc hAny] at h
      simp at h
      rw [← h]
      rfl
    · rw [confirmBooking_pass_missing retrieve store req hc (by simpa using hAny)] at h
      simp at h
  · obtain ⟨_, _, h3, _⟩ :=
      confirmBooking_not_pass retrieve store req (by simpa using hc)
    rw [h3] at h
    simp at h

/-- Witness for C8: the concrete body forges `userId := "mallory"`, yet the
appended booking carries the authenticated `"u1"`. -/
theorem confirmBooking_userId_witness :
    cBody.userId = some "mallory"
    ∧ (confirmBooking cRetrieve [cHotel] cReq).appended = some (mkBooking cReq.body "u1")
    ∧ (mkBooking cReq.body "u1").userId = cReq.userId :=
  ⟨by decide, by decide,
    confirmBooking_userId cRetrieve [cHotel] cReq (mkBooking cReq.body "u1") (by decide)⟩

/-- C9: on a successful confirm-booking the store decomposes around the
first hotel whose `_id` is the URL's `hotelId`; the new store keeps every
other document and every other field of that hotel unchanged and appends
exactly one booking to its bookings list. -/
theorem confirmBooking_frame (retrieve : String → Option PaymentIntent)
    (store : List Hotel) (req : ConfirmRequest)
    (h : (confirmBooking retrieve store req).status = 200) :
    ∃ pre x post, store = pre ++ x :: post
      ∧ x._id = req.hotelId
      ∧ (∀ y ∈ pre, y._id ≠ req.hotelId)
      ∧ (confirmBooking retrieve store req).store =
          pre ++ { x with bookings := x.bookings ++ [mkBooking req.body req.userId] } :: post := by
  by_cases hc : piChecksPass retrieve req = true
  · by_cases hAny : store.any (fun x => x._id == req.hotelId) = true
    · obtain ⟨pre, x, post, hs, hx, hpre, hpush⟩ :=
        pushBooking_split store req.hotelId (mkBooking req.body req.userId) hAny
      refine ⟨pre, x, post, hs, hx, hpre, ?_⟩
      rw [confirmBooking_pass_found retrieve store req hc hAny]
      exact hpush
    · rw [confirmBooking_pass_missing retrieve store req hc (by simpa using hAny)] at h
      simp at h
  · obtain ⟨h1, _, _, _⟩ :=
      confirmBooking_not_pass retrieve store req (by simpa using hc)
    rw [h1] at h
    simp at h

/-- Witness for C9 at the concrete request: the singleton store splits as
`[] ++ cHotel :: []` and the updated hotel holds exactly one new booking. -/
theorem confirmBooking_frame_witness :
    (confirmBooking cRetrieve [cHotel] cReq).status = 200
    ∧ (∃ pre x post, ([cHotel] : List Hotel) = pre ++ x :: post
      ∧ x._id = cReq.hotelId
      ∧ (∀ y ∈ pre, y._id ≠ cReq.hotelId)
      ∧ (confirmBooking cRetrieve [cHotel] cReq).store =
          pre ++ { x with bookings := x.bookings ++ [mkBooking cReq.body cReq.userId] } :: post) :=
  ⟨by decide, confirmBooking_frame cRetrieve [cHotel] cReq (by decide)⟩

/-- C4: on an existing hotel the payment-intent handler issues the provider
calls strictly in sequence — first `customers.create`, then
`paymentIntents.create` linked to that customer with amount
`pricePerNight * numberOfNights * 100`, currency "inr" and metadata
`{hotelId, userId}` — and answers 200 with the intent id, its client secret
and `totalCost = pricePerNight * numberOfNights`. -/
theorem paymentIntentHandler_spec (store : List Hotel) (hotelId userId : String)
    (numberOfNights : Nat) (customerId piId piSecret : String) (hotel : Hotel)
    (hfind : store.find? (fun h => h._id == hotelId) = some hotel) :
    paymentIntentHandler store hotelId userId numberOfNights customerId piId piSecret =
      (200,
       some { paymentIntentId := piId, clientSecret := piSecret
              totalCost := hotel.pricePerNight * numberOfNights },
       [StripeCall.createCustomer "Test User" "123 Test Street" "Hyderabad"
          "Telangana" "IN" "500001",
        StripeCall.createPaymentIntent (hotel.pricePerNight * numberOfNights * 100)
          "inr" customerId
          ("Booking at " ++ hotel.name ++ " for " ++ toString numberOfNights ++ " nights")
          hotelId userId],
       ["Hotel.findById"]) := by
  simp [paymentIntentHandler, hfind]

/-- Witness for C4 at the concrete hotel: three nights at 120 per night give
an intent over 36000 (paise) and a reported total cost of 360. -/
theorem paymentIntentHandler_spec_witness :
    ([cHotel].find? (fun h => h._id == "h1") = some cHotel)
    ∧ paymentIntentHandler [cHotel] "h1" "u1" 3 "cus_1" "pi_1" "sec_1" =
      (200,
       some { paymentIntentId := "pi_1", clientSecret := "sec_1"
              totalCost := cHotel.pricePerNight * 3 },
       [StripeCall.createCustomer "Test User" "123 Test Street" "Hyderabad"
          "Telangana" "IN" "500001",
        StripeCall.createPaymentIntent (cHotel.pricePerNight * 3 * 100)
          "inr" "cus_1"
          ("Booking at " ++ cHotel.name ++ " for " ++ toString 3 ++ " nights")
          "h1" "u1"],
       ["Hotel.findById"]) :=
  ⟨by decide,
    paymentIntentHandler_spec [cHotel] "h1" "u1" 3 "cus_1" "pi_1" "sec_1" cHotel (by decide)⟩

/-- C2 counterexample: in the payment-intent handler the hotel lookup runs
before the `try` block, so when that database call throws the exception
escapes the handler and no 500 response is produced, refuting the claim
that every exception yields a 500. -/
theorem paymentIntentHandlerExn_escapes :
    paymentIntentHandlerExn true true false false = Outcome.escaped
    ∧ Outcome.escaped ≠ Outcome.response 500 := by
  decide

/-- C2 amended: the search, fetch-all, fetch-one and confirm-booking
handlers answer 500 to any exception thrown while handling; the
payment-intent handler answers 500 to exceptions from the Stripe calls, but
an exception from its hotel lookup (executed before the `try`) escapes
without any response. -/
theorem handlers_exception_behavior :
    (∀ a b : Bool, (a || b) = true → searchHandlerExn a b = .response 500)
    ∧ (∀ a : Bool, a = true → allHotelsHandlerExn a = .response 500)
    ∧ (∀ e f g : Bool, e = false → f = true → hotelByIdHandlerExn e f g = .response 500)
    ∧ (∀ r d c f : Bool, r = true ∨ (c = true ∧ d = true) →
        confirmBookingExn r d c f = .response 500)
    ∧ (∀ fnd c i : Bool, fnd = true → (c || i) = true →
        paymentIntentHandlerExn false fnd c i = .response 500)
    ∧ (∀ fnd c i : Bool, paymentIntentHandlerExn true fnd c i = .escaped) :=
  ⟨by decide, by decide, by decide, by decide, by decide, by decide⟩

/-- Witness for the amended C2 at concrete flags: a throwing `find` in the
search handler produces the 500 response. -/
theorem handlers_exception_behavior_witness :
    (true || false) = true ∧ searchHandlerExn true false = .response 500 :=
  ⟨by decide, handlers_exception_behavior.1 true false (by decide)⟩

/-- C7 counterexample: the search handler performs two database calls per
request (`Hotel.find` and then `Hotel.countDocuments`), refuting the claim
that every handler performs at most one. -/
theorem searchHandler_two_db_calls :
    (searchHandler [] {}).2 = ["Hotel.find", "Hotel.countDocuments"]
    ∧ ¬ ((searchHandler [] {}).2.length ≤ 1) := by
  decide

/-- C7 amended: every handler except search performs at most one database
call per request; the search handler performs exactly two. -/
theorem db_calls_per_handler (store : List Hotel) (q : SearchParams) (id : String)
    (hotelId userId : String) (numberOfNights : Nat)
    (customerId piId piSecret : String)
    (retrieve : String → Option PaymentIntent) (req : ConfirmRequest) :
    (searchHandler store q).2.length = 2
    ∧ (allHotelsHandler store).2.length ≤ 1
    ∧ (hotelByIdHandler store id).2.length ≤ 1
    ∧ (paymentIntentHandler store hotelId userId numberOfNights
        customerId piId piSecret).2.2.2.length ≤ 1
    ∧ (confirmBooking retrieve store req).dbOps.length ≤ 1 := by
  refine ⟨?search, ?allh, ?byid, ?payint, ?confirm⟩
  · rcases h : jsParseInt ((q.page).getD "1") with _ | p <;>
      simp [searchHandler, h]
  · simp [allHotelsHandler]
  · by_cases hid : id.isEmpty
    · simp [hotelByIdHandler, hid]
    · rcases h : store.find? (fun h => h._id == id) with _ | hotel <;>
        simp [hotelByIdHandler, hid, h]
  · rcases h : store.find? (fun h => h._id == hotelId) with _ | hotel <;>
      simp [paymentIntentHandler, h]
  · by_cases hc : piChecksPass retrieve req = true
    · by_cases hAny : store.any (fun x => x._id == req.hotelId) = true
      · rw [confirmBooking_pass_found retrieve store req hc hAny]
        simp
      · rw [confirmBooking_pass_missing retrieve store req hc (by simpa using hAny)]
        simp
    · obtain ⟨_, _, _, h4⟩ :=
        confirmBooking_not_pass retrieve store req (by simpa using hc)
      rw [h4]
      simp

end BookingBackend
